import Mathlib

/-!
Verification development for the xca-bot web dashboard client-side
synchronization layer.

The definitions below are a shallow embedding of the JavaScript/TypeScript
source:
* the data model mirrors the interfaces in `src/lib/api.ts`;
* the SSE `onmessage`/`onerror` handlers and the UI actions mirror the
  `TwitterMonitor` component (`setupSSE`, `toggleMonitoring`,
  `saveConfiguration`, `refreshData`, `getMatchesToday`, log rendering);
* the one-shot request wrapper mirrors `apiCall` in
  `src/app/services/apiService.js` and `handleResponse` in `src/lib/api.ts`.

Conventions of the embedding:
* JavaScript exceptions are modelled with `Except String`;
* `JSON.parse` outcomes arrive as an `Except String payload` argument to the
  message handlers (the `try { JSON.parse ... } catch` structure);
* timestamps are epoch milliseconds (`Nat`); the UTC date part of `Date.toISOString()`
  becomes the UTC day index `ms / 86400000`;
* `setTimeout` registrations are returned as a list of delays so that
  "schedules no reconnect" is visible in the state transition.
-/

namespace XcaBot

/-- Mirrors the `TwitterConfig` interface of `src/lib/api.ts`. -/
structure TwitterConfig where
  api_key : String
  api_secret : String
  access_token : String
  access_token_secret : String
deriving DecidableEq

/-- Mirrors the `TelegramConfig` interface of `src/lib/api.ts`. -/
structure TelegramConfig where
  bot_token : String
  channel_id : String
  enable_direct_messages : Bool
  include_tweet_text : Bool
deriving DecidableEq

/-- Mirrors the `MonitoringConfig` interface of `src/lib/api.ts`. -/
structure MonitoringConfig where
  check_interval_minutes : Nat
  usernames : List String
  regex_patterns : List String
  keywords : List String
deriving DecidableEq

/-- Mirrors the `FullConfig` interface of `src/lib/api.ts`. -/
structure FullConfig where
  twitter : TwitterConfig
  telegram : TelegramConfig
  monitoring : MonitoringConfig
deriving DecidableEq

/-- Mirrors the `StatusResponse` interface of `src/lib/api.ts`
(`?` fields become `Option`). -/
structure StatusResponse where
  is_running : Bool
  pid : Option Nat
  uptime : Option String
  monitored_users : Nat
  regex_patterns : Nat
  keywords : Nat
  check_interval : Nat
  last_check : Option String
deriving DecidableEq

/-- Mirrors the `Match` interface of `src/lib/api.ts`; the `timestamp`
string is modelled by its epoch-millisecond value. -/
structure Match where
  username : String
  tweet_id : String
  tweet_text : String
  matched_pattern : List String
  timestamp : Nat
  tweet_url : String
deriving DecidableEq

/-- Mirrors the `MessageResponse` interface of `src/lib/api.ts`. -/
structure MessageResponse where
  message : String
  success : Bool
deriving DecidableEq

/-- The payload of a `/stream/status` SSE message, with exactly the fields
the handler reads (`data.is_running`, `data.uptime`, `data.next_run`). -/
structure StatusPayload where
  is_running : Bool
  uptime : Option String
  next_run : Option String
deriving DecidableEq

/-- The payload of a `/stream/logs` SSE message (the handler reads
`data.log`). -/
structure LogPayload where
  log : String
deriving DecidableEq

/-- The React state of the `TwitterMonitor` component (the `useState` slices
the claims are about). -/
structure ClientState where
  isRunning : Bool
  error : Option String
  status : Option StatusResponse
  recentMatches : List Match
  logs : List String
  config : FullConfig
  isTogglingMonitor : Bool
  isSavingConfig : Bool
deriving DecidableEq

/-- Used where the source spreads over a missing previous status
(`{...prev}` with `prev` null yields undefined fields; zero values stand for
them). -/
def emptyStatus : StatusResponse :=
  { is_running := false, pid := none, uptime := none, monitored_users := 0,
    regex_patterns := 0, keywords := 0, check_interval := 0, last_check := none }

/-- The display cap used by the match-stream handler (`.slice(0, 10)`). -/
def MATCHES_DISPLAY_CAP : Nat := 10

/-- `statusSource.onmessage`: on a parsed payload it sets `isRunning` and
merges `is_running`, `uptime` and `last_check` (from the `next_run` field of the payload) into the previous status; a parse failure only logs to the
console. The second component is the list of `setTimeout` delays the handler
registers (none). -/
def statusOnMessage (parsed : Except String StatusPayload) (s : ClientState) :
    ClientState × List Nat :=
  match parsed with
  | .error _ => (s, [])
  | .ok d =>
      ({ s with
          isRunning := d.is_running,
          status := some { (s.status.getD emptyStatus) with
                            is_running := d.is_running,
                            uptime := d.uptime,
                            last_check := d.next_run } }, [])

/-- `matchSource.onmessage`: `setRecentMatches(prev => [match, ...prev].slice(0, 10))`;
a parse failure only logs to the console. -/
def matchOnMessage (parsed : Except String Match) (s : ClientState) :
    ClientState × List Nat :=
  match parsed with
  | .error _ => (s, [])
  | .ok m =>
      ({ s with recentMatches := (m :: s.recentMatches).take MATCHES_DISPLAY_CAP }, [])

/-- `logSource.onmessage`: `setLogs(prev => [...prev, data.log])`;
a parse failure only logs to the console. -/
def logOnMessage (parsed : Except String LogPayload) (s : ClientState) :
    ClientState × List Nat :=
  match parsed with
  | .error _ => (s, [])
  | .ok d => ({ s with logs := s.logs ++ [d.log] }, [])

/-- Folds a sequence of successfully parsed match-stream events through
`matchOnMessage`, in arrival order. -/
def processMatchEvents (events : List Match) (s : ClientState) : ClientState :=
  events.foldl (fun st m => (matchOnMessage (.ok m) st).1) s

/-! ### Request client: `apiCall` of `src/app/services/apiService.js` -/

/-- The 5000 ms deadline armed with `setTimeout(() => controller.abort(), 5000)`
in `apiCall` (`src/app/services/apiService.js`) and `makeApiRequest`
(identical logic). -/
def REQUEST_TIMEOUT_MS : Nat := 5000

/-- A `fetch` `Response` as `apiCall` consumes it: `ok`, `status`,
`statusText`, and the `response.json()` outcome (`.error` when the body is
not valid JSON). -/
structure JsResponse (α : Type) where
  ok : Bool
  status : Nat
  statusText : String
  bodyJson : Except String α

/-- How a `fetch` call would settle, absent the abort controller: a response
after `elapsedMs`, a network failure (`Failed to fetch`) after `elapsedMs`,
or never. -/
inductive FetchEvent (α : Type) where
  | resolved (elapsedMs : Nat) (resp : JsResponse α)
  | networkFailure (elapsedMs : Nat)
  | noResponse

/-- What `await fetch(...)` yields once the abort timer is armed: if the
event would settle at or after `REQUEST_TIMEOUT_MS`, the controller has
already aborted and `fetch` rejects with an `AbortError`. -/
inductive FetchOutcome (α : Type) where
  | response (resp : JsResponse α)
  | abortError
  | failedToFetch

/-- Resolves the race between the fetch event and the abort timer. -/
def resolveFetch {α : Type} (ev : FetchEvent α) : FetchOutcome α :=
  match ev with
  | .resolved t r => if REQUEST_TIMEOUT_MS ≤ t then .abortError else .response r
  | .networkFailure t => if REQUEST_TIMEOUT_MS ≤ t then .abortError else .failedToFetch
  | .noResponse => .abortError

/-- The message `apiCall` substitutes for an `AbortError`:
`Request timeout: API server at ${API_BASE_URL} took too long to respond.` -/
def timeoutMessage (baseUrl : String) : String :=
  "Request timeout: API server at " ++ baseUrl ++ " took too long to respond."

/-- The message `apiCall` substitutes for `Failed to fetch`. -/
def cannotConnectMessage (baseUrl : String) : String :=
  "Cannot connect to API server at " ++ baseUrl ++
    ". Please check that the backend server is running."

/-- `apiCall(endpoint, options)` from `src/app/services/apiService.js`:
fetch with a 5 s abort timer; non-2xx throws `API error: {status} {statusText}`;
the catch block rewrites `AbortError` and `Failed to fetch` into the two
messages above and rethrows everything else. -/
def apiCall {α : Type} (baseUrl endpoint : String) (ev : FetchEvent α) :
    Except String α :=
  let _url := baseUrl ++ endpoint
  match resolveFetch ev with
  | .abortError => .error (timeoutMessage baseUrl)
  | .failedToFetch => .error (cannotConnectMessage baseUrl)
  | .response r =>
      if r.ok then r.bodyJson
      else .error ("API error: " ++ toString r.status ++ " " ++ r.statusText)

/-- The hypothesis of the timeout claim: the fetch event does not settle
before the 5000 ms deadline. -/
def noResponseWithinTimeout {α : Type} : FetchEvent α → Prop
  | .resolved t _ => REQUEST_TIMEOUT_MS ≤ t
  | .networkFailure t => REQUEST_TIMEOUT_MS ≤ t
  | .noResponse => True

/-- The notion used by the spec of an error message "naming" the configured base URL:
the URL occurs verbatim inside the message. -/
def namesUrl (msg url : String) : Prop :=
  ∃ pre post, msg = pre ++ url ++ post

/-! ### Response handling: `handleResponse` of `src/lib/api.ts` -/

/-- The error body shape `handleResponse` reads: an optional `detail` field
(`none` models an absent field; the JavaScript test `detail || default` also falls
back on the empty string). -/
structure ErrorBody where
  detail : Option String
deriving DecidableEq

/-- Models `errorData.detail || defaultMessage` where the default names the status. -/
def detailOrDefault (body : ErrorBody) (status : Nat) : String :=
  match body.detail with
  | some d => if d = "" then "API error: " ++ toString status else d
  | none => "API error: " ++ toString status

/-- JavaScript `try { inner } catch (e) { handler e }`. -/
def jsTry {α : Type} (inner : Except String α) (handler : String → Except String α) :
    Except String α :=
  match inner with
  | .ok a => .ok a
  | .error e => handler e

/-- `handleResponse` from `src/lib/api.ts` (lines 64-76). On a non-2xx
response the source runs, inside a `try`, `errorData = await response.json()`
followed by `throw new Error(errorData.detail || ...)`; both the parse
failure and that thrown error land in the same `catch`, which throws
`API error: {status} {statusText}`. -/
def handleResponse {α : Type} (ok : Bool) (status : Nat) (statusText : String)
    (errorJson : Except String ErrorBody) (body : Except String α) :
    Except String α :=
  if ok then body
  else
    jsTry
      (match errorJson with
        | .error e => .error e
        | .ok errorData => .error (detailOrDefault errorData status))
      (fun _ => .error ("API error: " ++ toString status ++ " " ++ statusText))

/-! ### `retryWithBackoff` of `src/lib/api.ts` -/

/-- The retry loop of `retryWithBackoff`, entered with the current value of
the `retries` counter. The attempt outcomes are supplied as
`fn : Nat → Except ε α` (outcome of the call when `retries = k`). Returns
the final outcome together with the list of delays waited between
attempts. -/
def retryAux {ε α : Type} (fn : Nat → Except ε α) (maxRetries initialDelay retries : Nat) :
    Except ε α × List Nat :=
  match fn retries with
  | .ok a => (.ok a, [])
  | .error e =>
      if maxRetries ≤ retries then (.error e, [])
      else
        let rest := retryAux fn maxRetries initialDelay (retries + 1)
        (rest.1, initialDelay * 2 ^ retries :: rest.2)
termination_by maxRetries - retries
decreasing_by omega

/-- `retryWithBackoff(fn, maxRetries, initialDelay)` from `src/lib/api.ts`
(lines 280-301): `retries` starts at 0. -/
def retryWithBackoff {ε α : Type} (fn : Nat → Except ε α)
    (maxRetries initialDelay : Nat) : Except ε α × List Nat :=
  retryAux fn maxRetries initialDelay 0

/-! ### Log rendering: the `logs` tab of `TwitterMonitor` -/

/-- Containment of `sub` as a contiguous run of `hay`. -/
def listIncludes (sub : List Char) : List Char → Bool
  | [] => sub.isEmpty
  | c :: rest => sub.isPrefixOf (c :: rest) || listIncludes sub rest

/-- JavaScript `hay.includes(sub)`: substring containment. -/
def jsIncludes (hay sub : String) : Bool :=
  listIncludes sub.toList hay.toList

/-- The class applied to a rendered log line (`src/unnamed/part_006`,
lines 826-838): `ERROR` is checked first, then `WARNING`, then `INFO`,
otherwise a default class. -/
def logClass (log : String) : String :=
  if jsIncludes log "ERROR" then "text-red-500"
  else if jsIncludes log "WARNING" then "text-yellow-500"
  else if jsIncludes log "INFO" then "text-blue-500"
  else "text-green-500"

/-! ### Derived view: `getMatchesToday` -/

/-- Milliseconds per day. -/
def MS_PER_DAY : Nat := 86400000

/-- The UTC calendar day index of an epoch-millisecond timestamp; this is
what comparing the date parts of `toISOString()` outputs compares. -/
def isoDateDay (ms : Nat) : Nat := ms / MS_PER_DAY

/-- `getMatchesToday` from `TwitterMonitor`: counts matches whose
`toISOString()` date part equals that of the current time. -/
def getMatchesToday (ms : List Match) (nowMs : Nat) : Nat :=
  (ms.filter (fun m => isoDateDay m.timestamp == isoDateDay nowMs)).length

/-- Modelled from the claim wording: the local calendar day index of a
timestamp under a timezone offset of `tzOffsetMinutes` minutes east of
UTC. -/
def localDateDay (ms : Nat) (tzOffsetMinutes : Int) : Int :=
  ((ms : Int) + tzOffsetMinutes * 60000).fdiv (MS_PER_DAY : Int)

/-- Modelled from the claim wording: the number of matches whose local
calendar date equals the current local date. -/
def matchesTodayLocal (ms : List Match) (nowMs : Nat) (tz : Int) : Nat :=
  (ms.filter (fun m => localDateDay m.timestamp tz == localDateDay nowMs tz)).length

/-! ### SSE connection handles: `setupSSE` / `handleError` -/

/-- The reconnect delay of `handleError` (`setTimeout(..., 5000)`). -/
def SSE_RETRY_MS : Nat := 5000

/-- The three SSE channels opened by `setupSSE`. -/
inductive Channel where
  | status
  | matchesChannel
  | logs
deriving DecidableEq, BEq

/-- The set of live `EventSource` handles, each tagged with the channel its
URL points at; `nextId` generates fresh handle identities. -/
structure SSESys where
  nextId : Nat
  active : List (Nat × Channel)
deriving DecidableEq

/-- One invocation of `setupSSE`: constructs a new `EventSource` for each of
`/stream/status`, `/stream/matches`, `/stream/logs`. -/
def openAll (s : SSESys) : SSESys :=
  { nextId := s.nextId + 3,
    active := s.active ++
      [(s.nextId, Channel.status), (s.nextId + 1, Channel.matchesChannel),
       (s.nextId + 2, Channel.logs)] }

/-- The component mount: the single `setupSSE()` call of the effect. -/
def sseInit : SSESys := openAll { nextId := 0, active := [] }

/-- The body of the `setTimeout` scheduled by `handleError` for a dropped
handle `h`, run `SSE_RETRY_MS` after the error event: `source.close()`
followed by `setupSSE()` — which closes only the erroring source but
reopens all three channels. -/
def onErrorTimerFires (h : Nat) (s : SSESys) : SSESys :=
  openAll { s with active := s.active.filter (fun p => p.1 != h) }

/-- Number of live handles attached to a given channel. -/
def countHandles (s : SSESys) (c : Channel) : Nat :=
  (s.active.filter (fun p => p.2 == c)).length

/-- The state right after the mount-time `setupSSE()`, then one error event
on the status handle (id 0) whose reconnect timer has fired. -/
def sseAfterOneStatusError : SSESys := onErrorTimerFires 0 sseInit

/-- A second drop, this time of the freshly opened status handle (id 3),
whose reconnect timer has fired as well. -/
def sseAfterTwoStatusErrors : SSESys := onErrorTimerFires 3 sseAfterOneStatusError

/-! ### UI actions: `toggleMonitoring`, `saveConfiguration`, `refreshData` -/

/-- `toggleMonitoring`: clears the banner, sets the toggling flag, awaits
`stopMonitoring()`/`startMonitoring()` (outcome supplied as `call`), flips
`isRunning` only on success, surfaces a banner on failure, and clears the
toggling flag in `finally`. -/
def toggleMonitoring (call : Except String MessageResponse) (s : ClientState) :
    ClientState :=
  let s1 := { s with error := none, isTogglingMonitor := true }
  match call with
  | .ok _ =>
      { s1 with isRunning := !s1.isRunning, isTogglingMonitor := false }
  | .error e =>
      { s1 with
          error := some ("Failed to " ++ (if s1.isRunning then "stop" else "start")
                          ++ " monitoring: " ++ e),
          isTogglingMonitor := false }

/-- `saveConfiguration`: clears the banner, sets the saving flag, awaits
`updateConfig(config)`, surfaces a fixed banner on failure, and clears the
saving flag in `finally`. -/
def saveConfiguration (call : Except String MessageResponse) (s : ClientState) :
    ClientState :=
  let s1 := { s with error := none, isSavingConfig := true }
  match call with
  | .ok _ => { s1 with isSavingConfig := false }
  | .error _ =>
      { s1 with
          error := some "Failed to save configuration. Please try again.",
          isSavingConfig := false }

/-- The success path of `refreshData`: `setRecentMatches(matchesData.matches)`,
`setStatus(statusData)` (wholesale), `setIsRunning(statusData.is_running)`. -/
def refreshData (matchesData : List Match) (statusData : StatusResponse)
    (s : ClientState) : ClientState :=
  { s with
      error := none,
      recentMatches := matchesData,
      status := some statusData,
      isRunning := statusData.is_running }

/-- The error banner is rendered exactly when `error` is non-null
(`src/unnamed/part_006`, lines 454-463). -/
def errorBannerShown (s : ClientState) : Bool :=
  s.error.isSome

/-- The dismiss button of the banner: `onClick={() => setError(null)}`. -/
def dismissError (s : ClientState) : ClientState :=
  { s with error := none }

/-! ### Concrete states and inputs used by witnesses and counterexamples -/

/-- The initial `useState` value of `config` in `TwitterMonitor`
(`src/unnamed/part_006`, lines 149-168). -/
def initialConfig : FullConfig :=
  { twitter := { api_key := "", api_secret := "", access_token := "",
                 access_token_secret := "" },
    telegram := { bot_token := "", channel_id := "",
                  enable_direct_messages := false, include_tweet_text := true },
    monitoring := { check_interval_minutes := 15, usernames := [],
                    regex_patterns := [], keywords := [] } }

/-- The initial `useState` values of the component. -/
def initialClientState : ClientState :=
  { isRunning := false, error := none, status := none, recentMatches := [],
    logs := [], config := initialConfig, isTogglingMonitor := false,
    isSavingConfig := false }

/-- Fifteen sequential match events for the cap scenario. -/
def c1WitnessEvents : List Match :=
  (List.range 15).map fun i =>
    { username := "user", tweet_id := toString i, tweet_text := "tweet",
      matched_pattern := ["0x"], timestamp := i, tweet_url := "url" }

/-- A status-stream payload for the status-merge counterexample. -/
def c3Payload : StatusPayload :=
  { is_running := true, uptime := some "1h", next_run := some "soon" }

/-- A client state whose current status reports 7 monitored users. -/
def c3StateA : ClientState :=
  { initialClientState with status := some { emptyStatus with monitored_users := 7 } }

/-- A client state whose current status reports 3 monitored users. -/
def c3StateB : ClientState :=
  { initialClientState with status := some { emptyStatus with monitored_users := 3 } }

/-- Attempt outcomes that fail twice and then succeed. -/
def c6SucceedsAt2 : Nat → Except String Nat :=
  fun k => if k < 2 then .error "boom" else .ok 42

/-- Attempt outcomes that always fail. -/
def c6AlwaysFails : Nat → Except String Nat :=
  fun _ => .error "down"

/-- A match stamped 21:30 UTC on epoch day 0 (23:30 local at UTC+2). -/
def c9Match : Match :=
  { username := "u", tweet_id := "1", tweet_text := "t", matched_pattern := [],
    timestamp := 77400000, tweet_url := "x" }

/-! ## Supporting lemmas -/

/-- Truncating the second summand before appending does not change a
truncated append. -/
theorem take_append_absorb {α : Type} (a b : List α) (n : Nat) :
    (a ++ b.take n).take n = (a ++ b).take n := by
  rw [List.take_append_eq_append_take, List.take_append_eq_append_take,
    List.take_take]
  have hmin : min (n - a.length) n = n - a.length :=
    Nat.min_eq_left (Nat.sub_le n a.length)
  rw [hmin]

/-- The matches slice after a run of match-stream events is the truncated
reversed event list on top of the starting slice. -/
theorem processMatchEvents_recentMatches (events : List Match) :
    ∀ s : ClientState, s.recentMatches.length ≤ MATCHES_DISPLAY_CAP →
      (processMatchEvents events s).recentMatches
        = (events.reverse ++ s.recentMatches).take MATCHES_DISPLAY_CAP := by
  induction events with
  | nil =>
      intro s h
      simpa [processMatchEvents] using (List.take_of_length_le h).symm
  | cons m rest ih =>
      intro s h
      have hstep : processMatchEvents (m :: rest) s
          = processMatchEvents rest
              { s with recentMatches := (m :: s.recentMatches).take MATCHES_DISPLAY_CAP } := by
        simp [processMatchEvents, matchOnMessage]
      rw [hstep, ih _ (by simp [List.length_take])]
      show (rest.reverse ++ (m :: s.recentMatches).take MATCHES_DISPLAY_CAP).take
            MATCHES_DISPLAY_CAP = _
      rw [take_append_absorb]
      congr 1
      simp

/-- Other slices of the client state are untouched by match-stream events. -/
theorem processMatchEvents_frame (events : List Match) :
    ∀ s : ClientState,
      (processMatchEvents events s).isRunning = s.isRunning
      ∧ (processMatchEvents events s).error = s.error
      ∧ (processMatchEvents events s).logs = s.logs
      ∧ (processMatchEvents events s).config = s.config := by
  induction events with
  | nil => intro s; exact ⟨rfl, rfl, rfl, rfl⟩
  | cons m rest ih =>
      intro s
      have hstep : processMatchEvents (m :: rest) s
          = processMatchEvents rest
              { s with recentMatches := (m :: s.recentMatches).take MATCHES_DISPLAY_CAP } := by
        simp [processMatchEvents, matchOnMessage]
      rw [hstep]
      exact ih _

/-! ## Claim theorems -/

/-- C1: for every sequence of incoming match-stream events, after each event
the displayed matches slice never exceeds the cap of 10 and equals the
reversed event sequence truncated to the cap (most recent first); with 15
sequential events from an empty slice exactly 10 entries remain, newest
first, the oldest 5 dropped. (The bound after each individual event follows
by instantiating `events` at every prefix of the stream.) -/
theorem c1_matches_cap_invariant (events : List Match) (s : ClientState)
    (h : s.recentMatches.length ≤ MATCHES_DISPLAY_CAP) :
    (processMatchEvents events s).recentMatches.length ≤ MATCHES_DISPLAY_CAP
    ∧ (processMatchEvents events { s with recentMatches := [] }).recentMatches
        = events.reverse.take MATCHES_DISPLAY_CAP
    ∧ (events.length = 15 →
        (processMatchEvents events { s with recentMatches := [] }).recentMatches.length
            = MATCHES_DISPLAY_CAP
        ∧ (processMatchEvents events { s with recentMatches := [] }).recentMatches
            = (events.drop 5).reverse) := by
  have hmain := processMatchEvents_recentMatches events s h
  have hempty := processMatchEvents_recentMatches events
    { s with recentMatches := [] } (by simp)
  refine ⟨?_, ?_, ?_⟩
  · rw [hmain]
    simp [List.length_take]
  · simpa using hempty
  · intro h15
    have heq : (processMatchEvents events { s with recentMatches := [] }).recentMatches
        = events.reverse.take MATCHES_DISPLAY_CAP := by simpa using hempty
    constructor
    · rw [heq]
      simp [List.length_take, h15, MATCHES_DISPLAY_CAP]
    · rw [heq, List.take_reverse, h15]
      norm_num [MATCHES_DISPLAY_CAP]

/-- Witness for C1 at the 15-event scenario from the initial client state. -/
theorem c1_matches_cap_invariant_witness :
    (processMatchEvents c1WitnessEvents initialClientState).recentMatches.length
        ≤ MATCHES_DISPLAY_CAP
    ∧ (processMatchEvents c1WitnessEvents
          { initialClientState with recentMatches := [] }).recentMatches
        = c1WitnessEvents.reverse.take MATCHES_DISPLAY_CAP
    ∧ ((processMatchEvents c1WitnessEvents
          { initialClientState with recentMatches := [] }).recentMatches.length
        = MATCHES_DISPLAY_CAP
      ∧ (processMatchEvents c1WitnessEvents
          { initialClientState with recentMatches := [] }).recentMatches
        = (c1WitnessEvents.drop 5).reverse) := by
  have h := c1_matches_cap_invariant c1WitnessEvents initialClientState (by decide)
  exact ⟨h.1, h.2.1, h.2.2 (by decide)⟩

/-- C10: an SSE message whose data is not valid JSON leaves the state slice
of its channel (and every other slice, including the error banner)
unchanged and registers no timer: the malformed message is silently
dropped. -/
theorem c10_malformed_message_silently_dropped (e : String) (s : ClientState) :
    statusOnMessage (.error e) s = (s, [])
    ∧ matchOnMessage (.error e) s = (s, [])
    ∧ logOnMessage (.error e) s = (s, []) :=
  ⟨rfl, rfl, rfl⟩

/-- C7: when the underlying call of a start/stop toggle or a config save
fails, the action surfaces a dismissible human-readable banner and mutates
nothing else: `isRunning`, `config`, `recentMatches`, `logs` and `status`
keep their pre-call values, and the in-flight flags return to false. -/
theorem c7_failed_action_no_partial_mutation (s : ClientState) (e : String) :
    errorBannerShown (toggleMonitoring (.error e) s) = true
    ∧ (toggleMonitoring (.error e) s).error
        = some ("Failed to " ++ (if s.isRunning then "stop" else "start")
                ++ " monitoring: " ++ e)
    ∧ (toggleMonitoring (.error e) s).isRunning = s.isRunning
    ∧ (toggleMonitoring (.error e) s).config = s.config
    ∧ (toggleMonitoring (.error e) s).recentMatches = s.recentMatches
    ∧ (toggleMonitoring (.error e) s).logs = s.logs
    ∧ (toggleMonitoring (.error e) s).status = s.status
    ∧ (toggleMonitoring (.error e) s).isTogglingMonitor = false
    ∧ errorBannerShown (dismissError (toggleMonitoring (.error e) s)) = false
    ∧ errorBannerShown (saveConfiguration (.error e) s) = true
    ∧ (saveConfiguration (.error e) s).error
        = some "Failed to save configuration. Please try again."
    ∧ (saveConfiguration (.error e) s).config = s.config
    ∧ (saveConfiguration (.error e) s).isRunning = s.isRunning
    ∧ (saveConfiguration (.error e) s).recentMatches = s.recentMatches
    ∧ (saveConfiguration (.error e) s).logs = s.logs
    ∧ (saveConfiguration (.error e) s).status = s.status
    ∧ (saveConfiguration (.error e) s).isSavingConfig = false
    ∧ errorBannerShown (dismissError (saveConfiguration (.error e) s)) = false := by
  refine ⟨rfl, rfl, rfl, rfl, rfl, rfl, rfl, rfl, rfl, rfl, rfl, rfl, rfl, rfl,
    rfl, rfl, rfl, rfl⟩

/-- C3 counterexample: the status-stream handler is not a wholesale
replacement — two states holding different previous statuses receive the
same payload yet display different statuses afterwards, so the displayed
status does not equal the received payload alone. -/
theorem c3_status_not_replaced_wholesale :
    (statusOnMessage (.ok c3Payload) c3StateA).1.status
      ≠ (statusOnMessage (.ok c3Payload) c3StateB).1.status := by
  decide

/-- C3 (amended): a status stream event merges into the previous status,
overwriting only `is_running`, `uptime` and `last_check` (the latter taken
from the payload `next_run`) and preserving every other field, while a
status fetch via `refreshData` replaces the displayed status wholesale with
the fetched payload (last writer wins per channel). -/
theorem c3_status_merge_and_fetch_replace (d : StatusPayload) (st : StatusResponse)
    (s : ClientState) (matchesData : List Match) (statusData : StatusResponse) :
    (statusOnMessage (.ok d) { s with status := some st }).1.status
        = some { st with is_running := d.is_running, uptime := d.uptime,
                          last_check := d.next_run }
    ∧ (statusOnMessage (.ok d) { s with status := some st }).1.isRunning
        = d.is_running
    ∧ (refreshData matchesData statusData s).status = some statusData
    ∧ (refreshData matchesData statusData s).isRunning = statusData.is_running :=
  ⟨rfl, rfl, rfl, rfl⟩

/-- C2: every one-shot request-client call that receives no response within
5000 ms fails with the timeout error, whose message names the configured
API base URL. -/
theorem c2_timeout_names_base_url {α : Type} (baseUrl endpoint : String)
    (ev : FetchEvent α) (h : noResponseWithinTimeout ev) :
    apiCall baseUrl endpoint ev = .error (timeoutMessage baseUrl)
    ∧ namesUrl (timeoutMessage baseUrl) baseUrl := by
  constructor
  · cases ev with
    | resolved t r =>
        have ht : REQUEST_TIMEOUT_MS ≤ t := h
        simp [apiCall, resolveFetch, ht]
    | networkFailure t =>
        have ht : REQUEST_TIMEOUT_MS ≤ t := h
        simp [apiCall, resolveFetch, ht]
    | noResponse => rfl
  · exact ⟨"Request timeout: API server at ", " took too long to respond.", rfl⟩

/-- Witness for C2: a call to the default base URL that never receives a
response fails with the timeout message naming that URL. -/
theorem c2_timeout_names_base_url_witness :
    apiCall "http://localhost:8000/api/v1" "/status"
        (FetchEvent.noResponse (α := Nat))
      = .error (timeoutMessage "http://localhost:8000/api/v1")
    ∧ namesUrl (timeoutMessage "http://localhost:8000/api/v1")
        "http://localhost:8000/api/v1" :=
  c2_timeout_names_base_url "http://localhost:8000/api/v1" "/status"
    FetchEvent.noResponse trivial

/-- C4 (code bug evidence): after the mount-time `setupSSE` each channel has
one live handle, but once a single status-channel drop has gone through the
5000 ms reconnect timer, the matches and logs channels each hold two live
handles, and a second drop raises the count to three — the reconnect path
closes only the erroring source yet reopens all three channels, so handles
grow without bound instead of staying at one per channel. -/
theorem c4_reconnect_leaks_handles :
    SSE_RETRY_MS = 5000
    ∧ countHandles sseInit Channel.status = 1
    ∧ countHandles sseInit Channel.matchesChannel = 1
    ∧ countHandles sseInit Channel.logs = 1
    ∧ countHandles sseAfterOneStatusError Channel.status = 1
    ∧ countHandles sseAfterOneStatusError Channel.matchesChannel = 2
    ∧ countHandles sseAfterOneStatusError Channel.logs = 2
    ∧ countHandles sseAfterTwoStatusErrors Channel.matchesChannel = 3
    ∧ countHandles sseAfterTwoStatusErrors Channel.logs = 3 := by
  decide

/-- C5 (code bug evidence): on a non-2xx response, `handleResponse` always
fails with `API error: {status} {statusText}` — the `throw` of the parsed
`detail` happens inside the same `try` whose `catch` replaces it, so a
parseable `detail` field (here `Invalid username` on a 400) never reaches
the caller. -/
theorem c5_detail_always_swallowed (status : Nat) (statusText : String)
    (errorJson : Except String ErrorBody) :
    handleResponse (α := Unit) false status statusText errorJson (Except.ok ())
        = Except.error ("API error: " ++ toString status ++ " " ++ statusText)
    ∧ handleResponse (α := Unit) false 400 "Bad Request"
        (Except.ok { detail := some "Invalid username" }) (Except.ok ())
        = Except.error "API error: 400 Bad Request"
    ∧ "API error: 400 Bad Request" ≠ "Invalid username" := by
  refine ⟨?_, rfl, by decide⟩
  cases errorJson <;> rfl

/-- Unfolding `retryAux` on a successful attempt. -/
theorem retryAux_of_ok {ε α : Type} {fn : Nat → Except ε α} {maxR d r : Nat}
    {v : α} (hok : fn r = .ok v) :
    retryAux fn maxR d r = (.ok v, []) := by
  unfold retryAux
  rw [hok]

/-- Unfolding `retryAux` on a failed attempt with the retry budget
exhausted. -/
theorem retryAux_of_error_last {ε α : Type} {fn : Nat → Except ε α}
    {maxR d r : Nat} {e : ε} (he : fn r = .error e) (hle : maxR ≤ r) :
    retryAux fn maxR d r = (.error e, []) := by
  unfold retryAux
  rw [he]
  simp [hle]

/-- Unfolding `retryAux` on a failed attempt with budget remaining: wait
`d * 2 ^ r` and loop. -/
theorem retryAux_of_error_step {ε α : Type} {fn : Nat → Except ε α}
    {maxR d r : Nat} {e : ε} (he : fn r = .error e) (hlt : r < maxR) :
    retryAux fn maxR d r
      = ((retryAux fn maxR d (r + 1)).1,
          d * 2 ^ r :: (retryAux fn maxR d (r + 1)).2) := by
  conv_lhs => unfold retryAux
  rw [he]
  simp [Nat.not_le.mpr hlt]

/-- When every attempt from `r` through `maxR` fails, the loop performs them
all, waits `d * 2 ^ k` after each failed attempt `k < maxR`, and ends with
the outcome of attempt `maxR`. -/
theorem retryAux_all_fail {ε α : Type} (fn : Nat → Except ε α) (maxR d : Nat) :
    ∀ n r, maxR - r = n → r ≤ maxR →
      (∀ k, r ≤ k → k ≤ maxR → (fn k).isOk = false) →
      retryAux fn maxR d r
        = (fn maxR, (List.range' r (maxR - r)).map fun k => d * 2 ^ k) := by
  intro n
  induction n with
  | zero =>
      intro r hn hr hall
      have hreq : r = maxR := by omega
      subst hreq
      obtain ⟨e, he⟩ : ∃ e, fn r = .error e := by
        have hko := hall r le_rfl le_rfl
        cases hfn : fn r with
        | ok v => rw [hfn] at hko; simp [Except.isOk, Except.toBool] at hko
        | error e => exact ⟨e, rfl⟩
      rw [retryAux_of_error_last he le_rfl]
      simp [he]
  | succ n ih =>
      intro r hn hr hall
      have hlt : r < maxR := by omega
      obtain ⟨e, he⟩ : ∃ e, fn r = .error e := by
        have hko := hall r le_rfl (Nat.le_of_lt hlt)
        cases hfn : fn r with
        | ok v => rw [hfn] at hko; simp [Except.isOk, Except.toBool] at hko
        | error e => exact ⟨e, rfl⟩
      rw [retryAux_of_error_step he hlt,
        ih (r + 1) (by omega) (by omega) (fun k hk1 hk2 => hall k (by omega) hk2)]
      have hcount : maxR - r = (maxR - (r + 1)) + 1 := by omega
      rw [hcount, List.range'_succ]
      simp

/-- When attempt `j` is the first success, the loop performs attempts `r`
through `j`, waiting `d * 2 ^ k` after each failed attempt, and returns the
outcome of attempt `j`. -/
theorem retryAux_first_success {ε α : Type} (fn : Nat → Except ε α) (maxR d : Nat) :
    ∀ n r j, j - r = n → r ≤ j → j ≤ maxR → (fn j).isOk = true →
      (∀ k, r ≤ k → k < j → (fn k).isOk = false) →
      retryAux fn maxR d r
        = (fn j, (List.range' r (j - r)).map fun k => d * 2 ^ k) := by
  intro n
  induction n with
  | zero =>
      intro r j hn hrj hjm hok hfail
      have hreq : r = j := by omega
      subst hreq
      obtain ⟨v, hv⟩ : ∃ v, fn r = .ok v := by
        cases hfn : fn r with
        | ok v => exact ⟨v, rfl⟩
        | error e => rw [hfn] at hok; simp [Except.isOk, Except.toBool] at hok
      rw [retryAux_of_ok hv]
      simp [hv]
  | succ n ih =>
      intro r j hn hrj hjm hok hfail
      have hltj : r < j := by omega
      obtain ⟨e, he⟩ : ∃ e, fn r = .error e := by
        have hko := hfail r le_rfl hltj
        cases hfn : fn r with
        | ok v => rw [hfn] at hko; simp [Except.isOk, Except.toBool] at hko
        | error e => exact ⟨e, rfl⟩
      rw [retryAux_of_error_step he (Nat.lt_of_lt_of_le hltj hjm),
        ih (r + 1) j (by omega) (by omega) hjm hok
          (fun k hk1 hk2 => hfail k (by omega) hk2)]
      have hcount : j - r = (j - (r + 1)) + 1 := by omega
      rw [hcount, List.range'_succ]
      simp

/-- C6: `retryWithBackoff(fn, maxRetries, initialDelay)` retries `fn` up to
`maxRetries` times after the initial attempt, waits
`initialDelay * 2 ^ attempt` between attempts, returns the first successful
result, and rethrows the last error once the retries are exhausted. -/
theorem c6_retryWithBackoff_spec {ε α : Type} (fn : Nat → Except ε α)
    (maxRetries initialDelay : Nat) :
    ((∀ k, k ≤ maxRetries → (fn k).isOk = false) →
      retryWithBackoff fn maxRetries initialDelay
        = (fn maxRetries, (List.range maxRetries).map fun k => initialDelay * 2 ^ k))
    ∧ (∀ j, j ≤ maxRetries → (fn j).isOk = true →
        (∀ k, k < j → (fn k).isOk = false) →
      retryWithBackoff fn maxRetries initialDelay
        = (fn j, (List.range j).map fun k => initialDelay * 2 ^ k)) := by
  constructor
  · intro hall
    have h := retryAux_all_fail fn maxRetries initialDelay maxRetries 0
      (by omega) (by omega) (fun k _ hk2 => hall k hk2)
    rw [retryWithBackoff, h, List.range_eq_range']
    simp
  · intro j hj hok hfail
    have h := retryAux_first_success fn maxRetries initialDelay j 0 j
      (by omega) (by omega) hj hok (fun k _ hk2 => hfail k hk2)
    rw [retryWithBackoff, h, List.range_eq_range']
    simp

/-- Witness for C6: with failures at attempts 0 and 1 and success at
attempt 2, the wrapper returns the success after delays 100 and 200; with
failures throughout and `maxRetries = 2`, it rethrows the last error after
the same delays. -/
theorem c6_retryWithBackoff_spec_witness :
    retryWithBackoff c6SucceedsAt2 3 100 = (.ok 42, [100, 200])
    ∧ retryWithBackoff c6AlwaysFails 2 100 = (.error "down", [100, 200]) := by
  constructor
  · have h := (c6_retryWithBackoff_spec c6SucceedsAt2 3 100).2 2
      (by decide) (by decide) (by decide)
    exact h.trans rfl
  · have h := (c6_retryWithBackoff_spec c6AlwaysFails 2 100).1 (by decide)
    exact h.trans rfl

/-- C8: a log line containing `ERROR` is rendered with the error style; a
line containing `WARNING` (and not `ERROR`) with the warning style; a line
containing `INFO` (and neither of the others, which take precedence in the
source) with the info style; and the three styles are pairwise distinct —
the level is inferred by substring match on the line text. -/
theorem c8_log_level_styling (line : String) :
    (jsIncludes line "ERROR" = true → logClass line = "text-red-500")
    ∧ (jsIncludes line "ERROR" = false → jsIncludes line "WARNING" = true →
        logClass line = "text-yellow-500")
    ∧ (jsIncludes line "ERROR" = false → jsIncludes line "WARNING" = false →
        jsIncludes line "INFO" = true → logClass line = "text-blue-500")
    ∧ logClass "[ERROR] e" ≠ logClass "[WARNING] w"
    ∧ logClass "[WARNING] w" ≠ logClass "[INFO] i"
    ∧ logClass "[ERROR] e" ≠ logClass "[INFO] i" := by
  refine ⟨?_, ?_, ?_, by decide, by decide, by decide⟩
  · intro h1
    simp [logClass, h1]
  · intro h1 h2
    simp [logClass, h1, h2]
  · intro h1 h2 h3
    simp [logClass, h1, h2, h3]

/-- Witness for C8 at three concrete log lines, one per level. -/
theorem c8_log_level_styling_witness :
    logClass "[ERROR] send failed" = "text-red-500"
    ∧ logClass "[WARNING] rate limited" = "text-yellow-500"
    ∧ logClass "[INFO] monitor started" = "text-blue-500" :=
  ⟨(c8_log_level_styling "[ERROR] send failed").1 (by decide),
   (c8_log_level_styling "[WARNING] rate limited").2.1 (by decide) (by decide),
   (c8_log_level_styling "[INFO] monitor started").2.2.1 (by decide) (by decide)
     (by decide)⟩

/-- C9 counterexample: `getMatchesToday` compares UTC date parts
(`toISOString`), not local calendar dates. At UTC+2, a match stamped 21:30
UTC and a current time of 23:00 UTC share the UTC day (so the code counts
the match) but fall on different local days (so the claimed local-date
count is 0). -/
theorem c9_not_local_dates :
    getMatchesToday [c9Match] 82800000 ≠ matchesTodayLocal [c9Match] 82800000 120 := by
  decide

/-- The local day at offset zero is the UTC day. -/
theorem localDateDay_zero (t : Nat) : localDateDay t 0 = (isoDateDay t : Int) := by
  unfold localDateDay isoDateDay
  rw [show ((0 : Int) * 60000) = 0 by norm_num, add_zero,
    Int.fdiv_eq_tdiv (Int.ofNat_nonneg t)
      (by exact_mod_cast Nat.zero_le MS_PER_DAY)]
  exact_mod_cast (Int.ofNat_tdiv t MS_PER_DAY).symm

/-- The day-equality tests agree at offset zero. -/
theorem local_beq_iso (t now : Nat) :
    (localDateDay t 0 == localDateDay now 0) = (isoDateDay t == isoDateDay now) := by
  rw [localDateDay_zero, localDateDay_zero]
  cases hb : isoDateDay t == isoDateDay now with
  | false =>
      have hne : isoDateDay t ≠ isoDateDay now := by
        intro hEq
        rw [hEq] at hb
        simp at hb
      have hne2 : (isoDateDay t : Int) ≠ (isoDateDay now : Int) := by
        exact_mod_cast hne
      simp [hne2]
  | true =>
      have heq : isoDateDay t = isoDateDay now := eq_of_beq hb
      simp [heq]

/-- C9 (amended): the Matches-today value counts the entries of the current
matches sequence whose UTC calendar date (the date part of `toISOString`)
equals the current UTC date; this coincides with the claimed local-date
count exactly at UTC offset zero. -/
theorem c9_matches_today_utc (ms : List Match) (nowMs : Nat) :
    getMatchesToday ms nowMs = matchesTodayLocal ms nowMs 0 := by
  unfold getMatchesToday matchesTodayLocal
  congr 1
  exact List.filter_congr fun m _ => (local_beq_iso m.timestamp nowMs).symm

end XcaBot
